import Mathlib

/-!
Shallow embedding of the SafeDrive AI drowsiness engine.

The embedding covers:
* the tunable constants of `constants.ts`;
* the per-frame safety state machine `handleMetricsUpdate` of `App.tsx`
  (closure-duration thresholds, probation relapse, recovery, probation
  timer and event-log emissions);
* the per-frame tracker of `DetectionPanel.tsx`'s `processVideo`
  (EAR smoothing window, eye-closure timer, blink timestamps, blink
  rate, drowsiness score), with the landmark producer treated as an
  opaque input supplying `earAvg` and `pitch` (or "no face");
* the report fallback logic of `geminiService.ts`'s
  `generateEmergencyReport`, with the external call modelled as an
  `Except` input.

Times are rationals (milliseconds), EAR values and scores rationals.
-/

namespace SafeDrive

/-- The three safety states of `types.ts`. -/
inductive DrowsinessState where
  | NORMAL
  | WARNING
  | CRITICAL
deriving DecidableEq, Repr

/-- `constants.ts`: EAR threshold below which eyes count as closed. -/
def EAR_THRESHOLD : ℚ := 26 / 100

/-- `constants.ts`: head-pitch threshold for nodding down. -/
def HEAD_PITCH_THRESHOLD : ℚ := 2 / 10

/-- `constants.ts`: 2 seconds, in ms. -/
def TIME_TO_WARNING : ℚ := 2000

/-- `constants.ts`: 10 seconds, in ms. -/
def TIME_TO_CRITICAL : ℚ := 10000

/-- `constants.ts`: 5 minutes, in ms. -/
def PROBATION_TIME : ℚ := 300000

/-- The if/else chain of `handleMetricsUpdate` (App.tsx) that computes the
next drowsiness state from the previous state, `closedMs`, the score and
the probation flag.  The second component records whether the
relapse-specific log line ("CRITICAL: Drowsiness relapse during
probation!") is emitted, which the source does inside the relapse branch
exactly when the previous state was not already CRITICAL. -/
def nextStateCore (prev : DrowsinessState) (closedMs score : ℚ)
    (isProbation : Bool) : DrowsinessState × Bool :=
  if closedMs > TIME_TO_CRITICAL then
    (DrowsinessState.CRITICAL, false)
  else if isProbation = true ∧ closedMs > 3000 then
    (DrowsinessState.CRITICAL, decide (prev ≠ DrowsinessState.CRITICAL))
  else if closedMs > TIME_TO_WARNING then
    (if prev ≠ DrowsinessState.CRITICAL then DrowsinessState.WARNING else prev, false)
  else if closedMs < 200 then
    (if prev = DrowsinessState.WARNING then DrowsinessState.NORMAL
     else if prev = DrowsinessState.CRITICAL then
       if score < 20 then DrowsinessState.NORMAL else prev
     else DrowsinessState.NORMAL, false)
  else
    (prev, false)

/-- Result of one run of `handleMetricsUpdate`: the next state, the
(possibly updated) probation deadline, and which log events were emitted
this frame. -/
structure UpdateResult where
  state : DrowsinessState
  probationEnd : ℚ
  relapseLogged : Bool
  probationLogged : Bool
  warningLogged : Bool
  criticalLogged : Bool
deriving DecidableEq, Repr

/-- One run of `handleMetricsUpdate` (App.tsx): converts the duration to
ms, computes probation from the wall clock, runs the state chain, and on
a state change performs the transition handling (probation start on
CRITICAL→NORMAL, warning-entry and critical-entry log events). -/
def handleMetricsUpdate (prev : DrowsinessState) (probationEnd : ℚ)
    (eyesClosedDuration score now : ℚ) : UpdateResult :=
  let closedMs := eyesClosedDuration * 1000
  let isProbation : Bool := decide (now < probationEnd)
  let r := nextStateCore prev closedMs score isProbation
  let next := r.1
  if next ≠ prev then
    if prev = DrowsinessState.CRITICAL ∧ next = DrowsinessState.NORMAL then
      ⟨next, now + PROBATION_TIME, r.2, true, false, false⟩
    else if next = DrowsinessState.WARNING then
      ⟨next, probationEnd, r.2, false, true, false⟩
    else if next = DrowsinessState.CRITICAL then
      ⟨next, probationEnd, r.2, false, false, true⟩
    else
      ⟨next, probationEnd, r.2, false, false, false⟩
  else
    ⟨next, probationEnd, r.2, false, false, false⟩

/-- EAR smoothing window update (DetectionPanel.tsx lines 121-122):
push the new average, and if the window now exceeds 10 entries shift
off the oldest. -/
def pushEar (earHistory : List ℚ) (earAvg : ℚ) : List ℚ :=
  let h := earHistory ++ [earAvg]
  if h.length > 10 then h.tail else h

/-- Smoothed EAR (DetectionPanel.tsx line 123): sum of the window
divided by its length. -/
def smoothedEAR (earHistory : List ℚ) : ℚ :=
  earHistory.foldl (fun a b => a + b) 0 / (earHistory.length : ℚ)

/-- Running the smoothing window over a whole input sequence, starting
from the empty history. -/
def runEarHistory (inputs : List ℚ) : List ℚ :=
  inputs.foldl pushEar []

/-- Drowsiness score (DetectionPanel.tsx lines 171-185). -/
def computeScore (smoothed pitch currentClosedDuration : ℚ) (bpm : ℕ) : ℚ :=
  let score0 : ℚ := 0
  let score1 := if smoothed < 28 / 100 then score0 + 30 else score0
  let score2 := if pitch > HEAD_PITCH_THRESHOLD then score1 + 40 else score1
  let score3 := score2 + currentClosedDuration * 20
  let score4 := if bpm < 10 then score3 + 10 else score3
  min 100 (max 0 score4)

/-- Mutable tracker state of `DetectionPanel.tsx` (the refs
`earHistory`, `eyesClosedStartTime`, `blinkTimestamps`, `wasClosedRef`). -/
structure TrackerState where
  earHistory : List ℚ
  eyesClosedStartTime : Option ℚ
  blinkTimestamps : List ℚ
  wasClosed : Bool
deriving DecidableEq, Repr

/-- The per-frame metrics bundle emitted via `onMetricsUpdate`
(the fields the engine computes; fps is presentation only). -/
structure DetectionMetrics where
  ear : ℚ
  eyesClosedDuration : ℚ
  blinkCount : ℕ
  blinksPerMinute : ℕ
  headPitch : ℚ
  drowsinessScore : ℚ
deriving DecidableEq, Repr

/-- The logic portion of `processVideo` (DetectionPanel.tsx lines
111-196) for a frame in which a face was found: smooth the EAR, run the
closure timer and blink detector, prune blinks older than 60 s, compute
the score and emit the metrics. -/
def processFrame (st : TrackerState) (earAvg pitch now : ℚ) :
    TrackerState × DetectionMetrics :=
  let hist := pushEar st.earHistory earAvg
  let smoothed := smoothedEAR hist
  if smoothed < EAR_THRESHOLD then
    let startTime :=
      match st.eyesClosedStartTime with
      | none => now
      | some t => t
    let currentClosedDuration := (now - startTime) / 1000
    let blinks := st.blinkTimestamps.filter (fun t => decide (now - t < 60000))
    let bpm := blinks.length
    let score := computeScore smoothed pitch currentClosedDuration bpm
    (⟨hist, some startTime, blinks, true⟩,
     ⟨smoothed, currentClosedDuration, bpm, bpm, pitch, score⟩)
  else
    let blinks0 := if st.wasClosed then st.blinkTimestamps ++ [now] else st.blinkTimestamps
    let blinks := blinks0.filter (fun t => decide (now - t < 60000))
    let bpm := blinks.length
    let score := computeScore smoothed pitch 0 bpm
    (⟨hist, none, blinks, false⟩,
     ⟨smoothed, 0, bpm, bpm, pitch, score⟩)

/-- The outer guard of `processVideo`: on a frame with no detected face
the whole logic block is skipped, so the tracker state is untouched and
no metrics bundle is emitted. -/
def processVideoStep (st : TrackerState) (frame : Option (ℚ × ℚ)) (now : ℚ) :
    TrackerState × Option DetectionMetrics :=
  match frame with
  | none => (st, none)
  | some fp =>
    let r := processFrame st fp.1 fp.2 now
    (r.1, some r.2)

/-- Tracker state at session start: all refs empty / cleared. -/
def initialTracker : TrackerState :=
  ⟨[], none, [], false⟩

/-- Feed a list of (earAvg, timestamp) frames (pitch 0) through the
tracker. -/
def runFrames (st : TrackerState) (frames : List (ℚ × ℚ)) : TrackerState :=
  frames.foldl (fun s fe => (processFrame s fe.1 0 fe.2).1) st

/-- The raw-EAR test sequence [0.30, 0.20, 0.31, 0.19, 0.32] paired with
frame times 0..4 ms. -/
def earTestSequence : List (ℚ × ℚ) :=
  [(3 / 10, 0), (2 / 10, 1), (31 / 100, 2), (19 / 100, 3), (32 / 100, 4)]

/-- `generateEmergencyReport` (geminiService.ts), with the external
text-generation call modelled as an `Except` input: `Except.error`
stands for a thrown/rejected call, `Except.ok t` for a response whose
`text` field is `t` (empty string standing for a missing/falsy text). -/
def generateEmergencyReport (apiKey : String)
    (apiResult : Except String String) : String :=
  if apiKey = "" then
    "API Key missing. Cannot generate AI report."
  else
    match apiResult with
    | Except.ok t =>
      if t = "" then "Emergency reported. Driver unresponsive." else t
    | Except.error _ => "Error generating AI report. System Alerting EMS manually."

/-! ### Helper lemmas about the state machine step -/

theorem handleMetricsUpdate_state (prev : DrowsinessState) (pe d s now : ℚ) :
    (handleMetricsUpdate prev pe d s now).state =
      (nextStateCore prev (d * 1000) s (decide (now < pe))).1 := by
  simp only [handleMetricsUpdate]
  split_ifs <;> rfl

theorem handleMetricsUpdate_relapse (prev : DrowsinessState) (pe d s now : ℚ) :
    (handleMetricsUpdate prev pe d s now).relapseLogged =
      (nextStateCore prev (d * 1000) s (decide (now < pe))).2 := by
  simp only [handleMetricsUpdate]
  split_ifs <;> rfl

theorem handleMetricsUpdate_probationEnd (prev : DrowsinessState) (pe d s now : ℚ) :
    (handleMetricsUpdate prev pe d s now).probationEnd =
      if prev = DrowsinessState.CRITICAL ∧
          (nextStateCore prev (d * 1000) s (decide (now < pe))).1 = DrowsinessState.NORMAL
      then now + PROBATION_TIME else pe := by
  by_cases c1 : prev = DrowsinessState.CRITICAL ∧
      (nextStateCore prev (d * 1000) s (decide (now < pe))).1 = DrowsinessState.NORMAL
  · have c0 : (nextStateCore prev (d * 1000) s (decide (now < pe))).1 ≠ prev := by
      rw [c1.2, c1.1]
      simp
    simp only [handleMetricsUpdate]
    rw [if_pos c0, if_pos c1, if_pos c1]
  · simp only [handleMetricsUpdate]
    rw [if_neg c1]
    by_cases c0 : (nextStateCore prev (d * 1000) s (decide (now < pe))).1 ≠ prev
    · rw [if_pos c0, if_neg c1]
      split_ifs <;> rfl
    · rw [if_neg c0, if_neg c1]

/-! ### Claim theorems: the state machine -/

/-- C1: for every previous state in {NORMAL, WARNING, CRITICAL}, every
drowsiness score, every probation deadline and every clock value, a frame
with `closedMs > 10000` (TIME_TO_CRITICAL) makes the next state
CRITICAL. -/
theorem critical_on_long_closure (prev : DrowsinessState) (pe d s now : ℚ)
    (h : d * 1000 > 10000) :
    (handleMetricsUpdate prev pe d s now).state = DrowsinessState.CRITICAL := by
  rw [handleMetricsUpdate_state]
  unfold nextStateCore TIME_TO_CRITICAL
  rw [if_pos h]

theorem critical_on_long_closure_witness :
    (10001 / 1000 : ℚ) * 1000 > 10000 ∧
    (handleMetricsUpdate DrowsinessState.NORMAL 0 (10001 / 1000) 50 0).state =
      DrowsinessState.CRITICAL :=
  ⟨by norm_num,
   critical_on_long_closure DrowsinessState.NORMAL 0 (10001 / 1000) 50 0 (by norm_num)⟩

/-- C2: for a frame with 3000 < closedMs ≤ 10000, if `now` is before the
probation deadline the next state is CRITICAL and the relapse-specific
log event fires exactly when the previous state was not CRITICAL; if
`now` is at or past the deadline, the relapse rule does not fire and the
same closure from NORMAL yields WARNING, not CRITICAL. -/
theorem probation_relapse_rule (prev : DrowsinessState) (pe d s now : ℚ) :
    (now < pe → 3000 < d * 1000 → d * 1000 ≤ 10000 →
      (handleMetricsUpdate prev pe d s now).state = DrowsinessState.CRITICAL ∧
      ((handleMetricsUpdate prev pe d s now).relapseLogged = true ↔
        prev ≠ DrowsinessState.CRITICAL)) ∧
    (pe ≤ now → 3000 < d * 1000 → d * 1000 ≤ 10000 →
      (handleMetricsUpdate DrowsinessState.NORMAL pe d s now).state =
        DrowsinessState.WARNING ∧
      (handleMetricsUpdate DrowsinessState.NORMAL pe d s now).state ≠
        DrowsinessState.CRITICAL) := by
  constructor
  · intro hp h1 h2
    rw [handleMetricsUpdate_state, handleMetricsUpdate_relapse]
    unfold nextStateCore TIME_TO_CRITICAL
    rw [if_neg (by linarith), if_pos ⟨decide_eq_true hp, h1⟩]
    exact ⟨rfl, decide_eq_true_iff⟩
  · intro hp h1 h2
    rw [handleMetricsUpdate_state]
    unfold nextStateCore TIME_TO_CRITICAL TIME_TO_WARNING
    rw [if_neg (by linarith),
        if_neg (fun hc => absurd (of_decide_eq_true hc.1) (not_lt.mpr hp)),
        if_pos (by linarith)]
    exact ⟨rfl, by simp⟩

theorem probation_relapse_rule_witness :
    (handleMetricsUpdate DrowsinessState.NORMAL 1000000 (3001 / 1000) 50 0).state =
      DrowsinessState.CRITICAL ∧
    (handleMetricsUpdate DrowsinessState.NORMAL 1000000 (3001 / 1000) 50 0).relapseLogged =
      true ∧
    (handleMetricsUpdate DrowsinessState.NORMAL 0 (3001 / 1000) 50 0).state =
      DrowsinessState.WARNING := by
  have h1 := (probation_relapse_rule DrowsinessState.NORMAL 1000000 (3001 / 1000) 50 0).1
    (by norm_num) (by norm_num) (by norm_num)
  have h2 := (probation_relapse_rule DrowsinessState.NORMAL 0 (3001 / 1000) 50 0).2
    (by norm_num) (by norm_num) (by norm_num)
  exact ⟨h1.1, h1.2.mpr (by decide), h2.1⟩

/-- C3: from CRITICAL with `closedMs < 200`, the next state is NORMAL
iff the drowsiness score is below 20; the probation deadline changes
only on a CRITICAL→NORMAL transition, and when it is set it becomes
`now + 300000` (PROBATION_TIME), strictly in the future. -/
theorem critical_recovery_and_probation (pe d s now : ℚ) :
    (d * 1000 < 200 →
      ((handleMetricsUpdate DrowsinessState.CRITICAL pe d s now).state =
          DrowsinessState.NORMAL ↔ s < 20)) ∧
    (∀ prev : DrowsinessState,
      (handleMetricsUpdate prev pe d s now).probationEnd ≠ pe →
        prev = DrowsinessState.CRITICAL ∧
        (handleMetricsUpdate prev pe d s now).state = DrowsinessState.NORMAL ∧
        (handleMetricsUpdate prev pe d s now).probationEnd = now + PROBATION_TIME) ∧
    (∀ prev : DrowsinessState, prev = DrowsinessState.CRITICAL →
      (handleMetricsUpdate prev pe d s now).state = DrowsinessState.NORMAL →
        (handleMetricsUpdate prev pe d s now).probationEnd = now + PROBATION_TIME ∧
        now < (handleMetricsUpdate prev pe d s now).probationEnd) := by
  refine ⟨?_, ?_, ?_⟩
  · intro h
    rw [handleMetricsUpdate_state]
    unfold nextStateCore TIME_TO_CRITICAL TIME_TO_WARNING
    rw [if_neg (by linarith), if_neg (fun hc => absurd hc.2 (by linarith)),
        if_neg (by linarith), if_pos h]
    by_cases hs : s < 20
    · simp [hs]
    · simp [hs]
  · intro prev hne
    rw [handleMetricsUpdate_probationEnd] at hne
    rw [handleMetricsUpdate_state, handleMetricsUpdate_probationEnd]
    by_cases hc : prev = DrowsinessState.CRITICAL ∧
        (nextStateCore prev (d * 1000) s (decide (now < pe))).1 = DrowsinessState.NORMAL
    · rw [if_pos hc]
      exact ⟨hc.1, hc.2, rfl⟩
    · rw [if_neg hc] at hne
      exact absurd rfl hne
  · intro prev hprev hst
    rw [handleMetricsUpdate_state] at hst
    rw [handleMetricsUpdate_probationEnd, if_pos ⟨hprev, hst⟩]
    refine ⟨rfl, ?_⟩
    unfold PROBATION_TIME
    linarith

theorem critical_recovery_and_probation_witness :
    (handleMetricsUpdate DrowsinessState.CRITICAL 0 (150 / 1000) 19 1000).state =
      DrowsinessState.NORMAL ∧
    (handleMetricsUpdate DrowsinessState.CRITICAL 0 (150 / 1000) 25 1000).state ≠
      DrowsinessState.NORMAL ∧
    (handleMetricsUpdate DrowsinessState.CRITICAL 0 (150 / 1000) 19 1000).probationEnd =
      1000 + PROBATION_TIME := by
  have h1 := (critical_recovery_and_probation 0 (150 / 1000) 19 1000).1 (by norm_num)
  have h2 := (critical_recovery_and_probation 0 (150 / 1000) 25 1000).1 (by norm_num)
  have h3 := (critical_recovery_and_probation 0 (150 / 1000) 19 1000).2.2
    DrowsinessState.CRITICAL rfl (h1.mpr (by norm_num))
  exact ⟨h1.mpr (by norm_num), fun hn => absurd (h2.mp hn) (by norm_num), h3.1⟩

/-- C4: from CRITICAL, the per-frame transition never produces WARNING:
for any closure duration, score, probation deadline and clock value the
next state is CRITICAL or NORMAL. -/
theorem critical_never_downgrades_to_warning (pe d s now : ℚ) :
    (handleMetricsUpdate DrowsinessState.CRITICAL pe d s now).state ≠
      DrowsinessState.WARNING ∧
    ((handleMetricsUpdate DrowsinessState.CRITICAL pe d s now).state =
        DrowsinessState.CRITICAL ∨
      (handleMetricsUpdate DrowsinessState.CRITICAL pe d s now).state =
        DrowsinessState.NORMAL) := by
  rw [handleMetricsUpdate_state]
  unfold nextStateCore
  split_ifs <;> simp_all

/-- C5: for every previous state, a frame with closedMs in the inclusive
dead zone [200, 2000] leaves the state unchanged. -/
theorem dead_zone_keeps_state (prev : DrowsinessState) (pe d s now : ℚ)
    (ha : 200 ≤ d * 1000) (hb : d * 1000 ≤ 2000) :
    (handleMetricsUpdate prev pe d s now).state = prev := by
  rw [handleMetricsUpdate_state]
  unfold nextStateCore TIME_TO_CRITICAL TIME_TO_WARNING
  rw [if_neg (by linarith : ¬d * 1000 > 10000),
      if_neg (fun hc => absurd hc.2 (by linarith : ¬d * 1000 > 3000)),
      if_neg (by linarith : ¬d * 1000 > 2000),
      if_neg (by linarith : ¬d * 1000 < 200)]

theorem dead_zone_keeps_state_witness :
    (200 : ℚ) ≤ 1 * 1000 ∧ (1 : ℚ) * 1000 ≤ 2000 ∧
    (handleMetricsUpdate DrowsinessState.WARNING 0 1 50 0).state =
      DrowsinessState.WARNING :=
  ⟨by norm_num, by norm_num,
   dead_zone_keeps_state DrowsinessState.WARNING 0 1 50 0 (by norm_num) (by norm_num)⟩

/-! ### Helper lemmas about the EAR smoothing window -/

theorem foldl_add_eq_add_sum (l : List ℚ) (a : ℚ) :
    l.foldl (fun x y => x + y) a = a + l.sum := by
  induction l generalizing a with
  | nil => simp
  | cons x xs ih =>
    rw [List.foldl_cons, ih, List.sum_cons]
    ring

theorem smoothedEAR_eq_sum_div (l : List ℚ) :
    smoothedEAR l = l.sum / (l.length : ℚ) := by
  unfold smoothedEAR
  rw [foldl_add_eq_add_sum, zero_add]

theorem pushEar_eq_drop (hist : List ℚ) (x : ℚ) (h : hist.length ≤ 10) :
    pushEar hist x = (hist ++ [x]).drop ((hist ++ [x]).length - 10) := by
  unfold pushEar
  by_cases hc : (hist ++ [x]).length > 10
  · rw [if_pos hc]
    have h11 : (hist ++ [x]).length = 11 := by
      simp only [List.length_append, List.length_cons, List.length_nil] at hc ⊢
      omega
    rw [h11, show (11 : ℕ) - 10 = 1 from rfl, List.drop_one]
  · rw [if_neg hc]
    have h0 : (hist ++ [x]).length - 10 = 0 := by omega
    rw [h0, List.drop_zero]

theorem pushEar_length_le (hist : List ℚ) (x : ℚ) (h : hist.length ≤ 10) :
    (pushEar hist x).length ≤ 10 := by
  unfold pushEar
  by_cases hc : (hist ++ [x]).length > 10
  · rw [if_pos hc]
    rw [List.length_tail]
    simp only [List.length_append, List.length_cons, List.length_nil]
    omega
  · rw [if_neg hc]
    omega

theorem foldl_pushEar_eq_drop (inputs : List ℚ) :
    ∀ hist : List ℚ, hist.length ≤ 10 →
      List.foldl pushEar hist inputs =
        (hist ++ inputs).drop ((hist ++ inputs).length - 10) := by
  induction inputs with
  | nil =>
    intro hist h
    simp only [List.foldl_nil, List.append_nil]
    rw [Nat.sub_eq_zero_of_le h, List.drop_zero]
  | cons x xs ih =>
    intro hist h
    rw [List.foldl_cons, ih (pushEar hist x) (pushEar_length_le hist x h),
        pushEar_eq_drop hist x h]
    have hd : (hist ++ [x]).length - 10 ≤ (hist ++ [x]).length := Nat.sub_le _ _
    rw [← List.drop_append_of_le_length hd, List.drop_drop]
    have e2 : (hist ++ [x]) ++ xs = hist ++ x :: xs := by
      rw [List.append_assoc]
      rfl
    rw [e2]
    congr 1
    rw [List.length_drop]
    simp only [List.length_append, List.length_cons, List.length_nil]
    omega

/-- C6: feeding any sequence of per-frame `earAvg` values through the
smoothing update leaves exactly the last `min n 10` samples in the
history, in insertion order with the oldest dropped first, and the
smoothed EAR is the arithmetic mean of that window. -/
theorem ear_window_moving_average (inputs : List ℚ) :
    runEarHistory inputs = inputs.drop (inputs.length - 10) ∧
    (runEarHistory inputs).length = min inputs.length 10 ∧
    smoothedEAR (runEarHistory inputs) =
      (inputs.drop (inputs.length - 10)).sum /
        ((min inputs.length 10 : ℕ) : ℚ) := by
  have h1 : runEarHistory inputs = inputs.drop (inputs.length - 10) := by
    unfold runEarHistory
    rw [foldl_pushEar_eq_drop inputs [] (by simp), List.nil_append]
  have h2 : (runEarHistory inputs).length = min inputs.length 10 := by
    rw [h1, List.length_drop]
    omega
  refine ⟨h1, h2, ?_⟩
  rw [smoothedEAR_eq_sum_div, h1, ← h2, h1]

/-! ### Claim theorems: blink counting, score, report fallback, no-face frames -/

/-- C7: per frame, exactly one blink timestamp is recorded on a
closed→open transition of the smoothed EAR across the 0.26 threshold
(and none otherwise); every stored timestamp lies strictly within the
trailing 60000 ms of the current time; the emitted `blinksPerMinute` is
the count of the stored timestamps; the raw-EAR sequence
[0.30, 0.20, 0.31, 0.19, 0.32] fed from an empty history yields exactly
2 blinks; and 61 s after a lone blink, with no new blink, the count is
0. -/
theorem blink_counting (st0 : TrackerState) (e p n : ℚ) :
    ((processFrame st0 e p n).1).blinkTimestamps.length =
      (st0.blinkTimestamps.filter (fun t => decide (n - t < 60000))).length +
        (if st0.wasClosed = true ∧
            ¬smoothedEAR (pushEar st0.earHistory e) < EAR_THRESHOLD
         then 1 else 0) ∧
    (∀ t : ℚ, t ∈ ((processFrame st0 e p n).1).blinkTimestamps → n - t < 60000) ∧
    ((processFrame st0 e p n).2).blinksPerMinute =
      ((processFrame st0 e p n).1).blinkTimestamps.length ∧
    (runFrames initialTracker earTestSequence).blinkTimestamps.length = 2 ∧
    ((processFrame (TrackerState.mk [] none [0] false) (3 / 10) 0 61000).2).blinksPerMinute
      = 0 := by
  refine ⟨?_, ?_, ?_,
    by norm_num [runFrames, earTestSequence, processFrame, pushEar, smoothedEAR,
      computeScore, initialTracker, EAR_THRESHOLD, HEAD_PITCH_THRESHOLD,
      List.foldl, List.filter],
    by norm_num [processFrame, pushEar, smoothedEAR, computeScore, EAR_THRESHOLD,
      HEAD_PITCH_THRESHOLD, List.filter]⟩
  · simp only [processFrame]
    by_cases hc : smoothedEAR (pushEar st0.earHistory e) < EAR_THRESHOLD
    · rw [if_pos hc]
      simp [hc]
    · rw [if_neg hc]
      by_cases hw : st0.wasClosed
      · rw [if_pos hw]
        simp only [hc, hw, and_true, not_false_iff, if_pos, List.filter_append]
        rw [List.length_append]
        have hkeep : List.filter (fun t => decide (n - t < 60000)) [n] = [n] := by
          simp
        rw [hkeep]
        simp
      · rw [if_neg hw]
        simp [hw]
  · intro t ht
    simp only [processFrame] at ht
    split_ifs at ht <;>
      simp only [List.mem_filter, decide_eq_true_eq] at ht <;> exact ht.2
  · simp only [processFrame]
    split_ifs <;> rfl

theorem blink_counting_witness :
    (5 : ℚ) - 0 < 60000 ∧
    (runFrames initialTracker earTestSequence).blinkTimestamps.length = 2 :=
  ⟨(blink_counting (TrackerState.mk [] none [0] true) (3 / 10) 0 5).2.1 0
      (by norm_num [processFrame, pushEar, smoothedEAR, computeScore, EAR_THRESHOLD,
        HEAD_PITCH_THRESHOLD, List.filter]),
   (blink_counting initialTracker 0 0 0).2.2.2.1⟩

theorem clamp_bounds (x : ℚ) : 0 ≤ min 100 (max 0 x) ∧ min 100 (max 0 x) ≤ 100 := by
  simp only [min_def, max_def]
  split_ifs <;> constructor <;> linarith

theorem clamp_mono {x y : ℚ} (h : x ≤ y) :
    min 100 (max 0 x) ≤ min 100 (max 0 y) := by
  simp only [min_def, max_def]
  split_ifs <;> linarith

theorem clamp_le_clamp_add {x y c : ℚ} (hc : 0 ≤ c) (hxy : y ≤ x + c) :
    min 100 (max 0 y) ≤ min 100 (max 0 x) + c := by
  simp only [min_def, max_def]
  split_ifs <;> linarith

/-- C8: for all inputs with a nonnegative closure duration the score is
in [0, 100]; holding the other inputs fixed the score is monotonically
non-decreasing in the closure duration, and it grows by at most 20 per
added second (the pre-clamp rate of the duration term). -/
theorem score_bounds_and_monotone (smoothed pitch : ℚ) (bpm : ℕ) :
    (∀ d : ℚ, 0 ≤ d →
      0 ≤ computeScore smoothed pitch d bpm ∧
      computeScore smoothed pitch d bpm ≤ 100) ∧
    (∀ d1 d2 : ℚ, d1 ≤ d2 →
      computeScore smoothed pitch d1 bpm ≤ computeScore smoothed pitch d2 bpm) ∧
    (∀ d1 d2 : ℚ, d1 ≤ d2 →
      computeScore smoothed pitch d2 bpm ≤
        computeScore smoothed pitch d1 bpm + (d2 - d1) * 20) := by
  refine ⟨?_, ?_, ?_⟩
  · intro d hd
    simp only [computeScore]
    exact clamp_bounds _
  · intro d1 d2 h
    simp only [computeScore]
    split_ifs <;> exact clamp_mono (by linarith)
  · intro d1 d2 h
    simp only [computeScore]
    split_ifs <;> exact clamp_le_clamp_add (by linarith) (by linarith)

theorem score_bounds_and_monotone_witness :
    (0 ≤ computeScore (1 / 10) 0 2 5 ∧ computeScore (1 / 10) 0 2 5 ≤ 100) ∧
    computeScore (1 / 10) 0 1 5 ≤ computeScore (1 / 10) 0 2 5 :=
  ⟨(score_bounds_and_monotone (1 / 10) 0 5).1 2 (by norm_num),
   (score_bounds_and_monotone (1 / 10) 0 5).2.1 1 2 (by norm_num)⟩

/-- C9 counterexample: with credentials missing, `generateEmergencyReport`
does not return the fallback string "Error generating AI report. System
Alerting EMS manually." — it returns the distinct message "API Key
missing. Cannot generate AI report.", even when the modelled external
call would have failed. -/
theorem report_missing_key_counterexample :
    generateEmergencyReport "" (Except.error "network error") ≠
      "Error generating AI report. System Alerting EMS manually." ∧
    generateEmergencyReport "" (Except.error "network error") =
      "API Key missing. Cannot generate AI report." := by
  exact ⟨by decide, rfl⟩

/-- C9 amended: with credentials present, a failing external call makes
`generateEmergencyReport` return the fixed fallback string "Error
generating AI report. System Alerting EMS manually."; with credentials
missing it returns the fixed string "API Key missing. Cannot generate AI
report."; in both cases a string is returned rather than a fault
propagated. -/
theorem report_fallback_on_failure (apiKey err : String)
    (r : Except String String) (h : apiKey ≠ "") :
    generateEmergencyReport apiKey (Except.error err) =
      "Error generating AI report. System Alerting EMS manually." ∧
    generateEmergencyReport "" r =
      "API Key missing. Cannot generate AI report." := by
  constructor
  · unfold generateEmergencyReport
    rw [if_neg h]
  · unfold generateEmergencyReport
    rw [if_pos rfl]

theorem report_fallback_on_failure_witness :
    generateEmergencyReport "k" (Except.error "quota exceeded") =
      "Error generating AI report. System Alerting EMS manually." ∧
    generateEmergencyReport "" (Except.ok "some report") =
      "API Key missing. Cannot generate AI report." := by
  have h := report_fallback_on_failure "k" "quota exceeded"
    (Except.ok "some report") (by decide)
  exact ⟨h.1, h.2⟩

/-- C10: a frame on which the landmark detector reports no face leaves
the whole tracker state untouched and emits no metrics; in particular
`eyesClosedStartTime` is not cleared, so a frame assessed closed after a
face-loss gap reports a closure duration spanning back to the original
start time. -/
theorem no_face_frame_skips_pipeline :
    (∀ (st : TrackerState) (now : ℚ), processVideoStep st none now = (st, none)) ∧
    (∀ (st : TrackerState) (t0 e p now : ℚ),
      st.eyesClosedStartTime = some t0 →
      smoothedEAR (pushEar st.earHistory e) < EAR_THRESHOLD →
      ((processFrame st e p now).2).eyesClosedDuration = (now - t0) / 1000 ∧
      ((processFrame st e p now).1).eyesClosedStartTime = some t0) := by
  constructor
  · intro st now
    rfl
  · intro st t0 e p now h1 h2
    simp only [processFrame]
    rw [if_pos h2, h1]
    exact ⟨rfl, rfl⟩

theorem no_face_frame_skips_pipeline_witness :
    processVideoStep (TrackerState.mk [1 / 10] (some 5) [] true) none 50000 =
      (TrackerState.mk [1 / 10] (some 5) [] true, none) ∧
    ((processFrame (TrackerState.mk [1 / 10] (some 5) [] true) (1 / 10) 0 100000).2).eyesClosedDuration
      = ((100000 : ℚ) - 5) / 1000 :=
  ⟨no_face_frame_skips_pipeline.1 (TrackerState.mk [1 / 10] (some 5) [] true) 50000,
   (no_face_frame_skips_pipeline.2 (TrackerState.mk [1 / 10] (some 5) [] true)
      5 (1 / 10) 0 100000 rfl
      (by norm_num [pushEar, smoothedEAR, EAR_THRESHOLD])).1⟩

end SafeDrive
